/-
Verification of the trading backtest engine: a shallow embedding of
`src/utils/trader.py` (Trader), `src/backtesting/run_backtest.py`
(run_backtest) and `src/backtesting/score.py` (calculate_score),
with proofs of the specification's claims about them.

Modelling conventions:
* Python floats become `ℚ` (exact arithmetic).
* Python dicts become association lists `List (String × α)`:
  `d[k]` read is `dlookup` (a missing key is a KeyError, modelled as
  `Except.error`), `d[k] = v` write is `dinsert` (updates in place or
  appends, like dict assignment).
* A Python function that can raise returns `Except String α`; the error
  string names the Python exception it stands for.
* Timestamps become `ℤ` (seconds).
-/
import Mathlib

namespace HackathonTrading

instance {ε α : Type} [DecidableEq ε] [DecidableEq α] :
    DecidableEq (Except ε α) := fun a b =>
  match a, b with
  | .ok x, .ok y =>
    if h : x = y then .isTrue (by rw [h]) else
      .isFalse (by intro hc; cases hc; exact h rfl)
  | .error x, .error y =>
    if h : x = y then .isTrue (by rw [h]) else
      .isFalse (by intro hc; cases hc; exact h rfl)
  | .ok _, .error _ => .isFalse (by intro hc; cases hc)
  | .error _, .ok _ => .isFalse (by intro hc; cases hc)

/-- Read a key from a Python-dict association list (`d.get(k)` / `d[k]`
before the KeyError check). -/
def dlookup {α : Type} : List (String × α) → String → Option α
  | [], _ => none
  | p :: tl, k => if p.1 == k then some p.2 else dlookup tl k

/-- Write a key into a Python-dict association list (`d[k] = v`): replace
the entry if the key is present (dict keys are unique), append it
otherwise. -/
def dinsert {α : Type} : List (String × α) → String → α → List (String × α)
  | [], k, v => [(k, v)]
  | p :: tl, k, v => if p.1 == k then (k, v) :: tl else p :: dinsert tl k v

/-- Model of `str.split("/")` on the underlying character list. -/
def splitCh : List Char → List (List Char)
  | [] => [[]]
  | c :: cs =>
    if c = '/' then [] :: splitCh cs
    else
      match splitCh cs with
      | [] => [[c]]
      | g :: gs => (c :: g) :: gs

/-- Model of `base, quote = pair.split("/")`: succeeds exactly when the split has
two parts (otherwise Python raises ValueError on unpacking). -/
def splitPair (s : String) : Option (String × String) :=
  match splitCh s.data with
  | [b, q] => some (String.mk b, String.mk q)
  | _ => none

/-- Model of `pair.split('/')[0]` — the base asset; Python's split always returns at
least one part. -/
def firstPart (s : String) : String :=
  match splitCh s.data with
  | [] => ""
  | g :: _ => String.mk g

/-- The dynamic type of `Trader.equity_history`: `__init__` stores the float
`0.0`, `run_backtest` later overwrites it with a list. -/
inductive EquityHistory : Type
  | scalar (x : ℚ)
  | list (xs : List ℚ)
deriving DecidableEq, Repr

/-- State of `Trader` (src/utils/trader.py). -/
structure Trader : Type where
  balances : List (String × ℚ)
  prices : List (String × Option ℚ)
  first_prices : List (String × Option ℚ)
  first_update : List (String × Bool)
  equity_history : EquityHistory
  turnover : ℚ
  trade_count : ℕ
  total_fees_paid : ℚ
  fee : ℚ
deriving DecidableEq, Repr

/-- Model of `Trader.__init__(balances, fee)`. -/
def Trader.init (balances : List (String × ℚ)) (fee : ℚ) : Trader where
  balances := balances
  prices := [("token_1/fiat", none), ("token_2/fiat", none),
             ("token_1/token_2", none)]
  first_prices := [("token_1/fiat", none), ("token_2/fiat", none),
                   ("token_1/token_2", none)]
  first_update := [("token_1/fiat", false), ("token_2/fiat", false),
                   ("token_1/token_2", false)]
  equity_history := .scalar 0
  turnover := 0
  trade_count := 0
  total_fees_paid := 0
  fee := fee

/-- Model of `Trader.calculate_portfolio_value`: fiat balance plus token values,
with the triangular token_2 fallback through token_1/token_2. -/
def Trader.calculate_portfolio_value (t : Trader) : Except String ℚ :=
  match dlookup t.balances "fiat" with
  | none => .error "KeyError: fiat"
  | some v0 =>
    match dlookup t.prices "token_1/fiat" with
    | none => .error "KeyError: token_1/fiat"
    | some p1opt =>
      match (match p1opt with
             | none => Except.ok v0
             | some p1 =>
               match dlookup t.balances "token_1" with
               | none => Except.error "KeyError: token_1"
               | some b1 => Except.ok (v0 + b1 * p1)) with
      | .error e => .error e
      | .ok v1 =>
        match dlookup t.prices "token_2/fiat" with
        | none => .error "KeyError: token_2/fiat"
        | some p2opt =>
          match p2opt with
          | some p2 =>
            match dlookup t.balances "token_2" with
            | none => .error "KeyError: token_2"
            | some b2 => .ok (v1 + b2 * p2)
          | none =>
            match dlookup t.prices "token_1/token_2" with
            | none => .error "KeyError: token_1/token_2"
            | some p12opt =>
              match p1opt, p12opt with
              | some p1, some p12 =>
                match dlookup t.balances "token_2" with
                | none => .error "KeyError: token_2"
                | some b2 => .ok (v1 + b2 / p12 * p1)
              | _, _ => .ok v1

/-- Model of `Trader.update_market(pair, price_data)`: store the close, record the
first price, then append the current portfolio value to the equity history.
Fails with a KeyError when `pair` is not a key of `first_update`, and with
an AttributeError when `equity_history` is still the scalar from
`__init__`. The trailing two source lines (`equity =
self.calculate_portfolio_value()` and `self.equity_history.append(equity)`)
are factored out as `appendEquity`. -/
def Trader.appendEquity (u : Trader) : Except String Trader :=
  match u.calculate_portfolio_value with
  | .error e => .error e
  | .ok eq =>
    match u.equity_history with
    | .scalar _ => .error "AttributeError: float has no append"
    | .list xs => .ok { u with equity_history := .list (xs ++ [eq]) }

def Trader.update_market (t : Trader) (pair : String) (close : ℚ) :
    Except String Trader :=
  let t1 : Trader := { t with prices := dinsert t.prices pair (some close) }
  match dlookup t1.first_update pair with
  | none => .error "KeyError: first_update"
  | some fu =>
    Trader.appendEquity
      (if fu then t1
       else { t1 with
               first_prices := dinsert t1.first_prices pair (some close),
               first_update := dinsert t1.first_update pair true })

/-- An order as produced by a strategy: `{pair, side, qty}`. -/
structure OrderRequest : Type where
  pair : String
  side : String
  qty : ℚ
deriving DecidableEq, Repr

/-- Model of `Trader.execute(order)` (src/utils/trader.py lines 73–129). -/
def Trader.execute (t : Trader) (o : OrderRequest) : Except String Trader :=
  match splitPair o.pair with
  | none => .error "ValueError: unpack"
  | some (base, quote) =>
    match dlookup t.prices o.pair with
    | none => .error "KeyError: prices"
    | some none => .ok t
    | some (some price) =>
      if o.side = "buy" then
        let base_cost := o.qty * price
        let fee_amount := base_cost * t.fee
        let total_cost := base_cost + fee_amount
        match dlookup t.balances quote with
        | none => .error "KeyError: balances quote"
        | some bq =>
          if total_cost ≤ bq then
            let bal1 := dinsert t.balances quote (bq - total_cost)
            match dlookup bal1 base with
            | none => .error "KeyError: balances base"
            | some bb =>
              .ok { t with
                      balances := dinsert bal1 base (bb + o.qty),
                      turnover := t.turnover + total_cost,
                      total_fees_paid := t.total_fees_paid + fee_amount,
                      trade_count := t.trade_count + 1 }
          else .ok t
      else if o.side = "sell" then
        match dlookup t.balances base with
        | none => .error "KeyError: balances base"
        | some bb =>
          if o.qty ≤ bb then
            let base_proceeds := o.qty * price
            let fee_amount := base_proceeds * t.fee
            let net_proceeds := base_proceeds - fee_amount
            match dlookup t.balances quote with
            | none => .error "KeyError: balances quote"
            | some bq =>
              let bal1 := dinsert t.balances quote (bq + net_proceeds)
              match dlookup bal1 base with
              | none => .error "KeyError: balances base"
              | some bb2 =>
                .ok { t with
                        balances := dinsert bal1 base (bb2 - o.qty),
                        turnover := t.turnover + base_proceeds,
                        total_fees_paid := t.total_fees_paid + fee_amount,
                        trade_count := t.trade_count + 1 }
          else .ok t
      else .ok t

/-! ## run_backtest (src/backtesting/run_backtest.py) -/

/-- One row of the input market-data table (only the fields the engine
reads: `timestamp`, `symbol`, `close`). -/
structure Tick : Type where
  timestamp : ℤ
  symbol : String
  close : ℚ
deriving DecidableEq, Repr

/-- One row of the output trade ledger: `{id, timestamp, pair, side, qty}`
(the uuid is modelled as an opaque counter). -/
structure LedgerRow : Type where
  id : ℕ
  timestamp : ℤ
  pair : String
  side : String
  qty : ℚ
deriving DecidableEq, Repr

/-- Insert a tick after every tick of not-larger timestamp: the step of a
stable sort by `timestamp` (pandas `sort_values` keeps the original order
of ties). -/
def insertTick (x : Tick) : List Tick → List Tick
  | [] => [x]
  | y :: ys =>
    if y.timestamp ≤ x.timestamp then y :: insertTick x ys
    else x :: y :: ys

/-- Stable sort of the input table by timestamp
(`combined_data.sort_values("timestamp")`). -/
def sortTicks (l : List Tick) : List Tick :=
  l.foldl (fun acc x => insertTick x acc) []

/-- First close per symbol, in timestamp order — the dict comprehension over
`combined_data.groupby("symbol")`. -/
def firstPrices (rows : List Tick) : List (String × ℚ) :=
  rows.foldl
    (fun acc r =>
      if (dlookup acc r.symbol).isSome then acc
      else acc ++ [(r.symbol, r.close)])
    []

/-- The initial portfolio value computed by `run_backtest` before the loop:
fiat plus each token's first price, counted only when the balance is
strictly positive (reading `balances["token_1"]`/`["token_2"]` can raise a
KeyError when the first price exists). -/
def initPV (balances : List (String × ℚ)) (fp : List (String × ℚ)) :
    Except String ℚ :=
  match dlookup balances "fiat" with
  | none => .error "KeyError: fiat"
  | some v0 =>
    match (match dlookup fp "token_1/fiat" with
           | none => Except.ok v0
           | some p1 =>
             match dlookup balances "token_1" with
             | none => Except.error "KeyError: token_1"
             | some b1 => Except.ok (if 0 < b1 then v0 + b1 * p1 else v0)) with
    | .error e => .error e
    | .ok v1 =>
      match dlookup fp "token_2/fiat" with
      | none => .ok v1
      | some p2 =>
        match dlookup balances "token_2" with
        | none => .error "KeyError: token_2"
        | some b2 => .ok (if 0 < b2 then v1 + b2 * p2 else v1)

/-- Group consecutive ticks sharing a timestamp
(`combined_data.groupby('timestamp')` on the sorted table). -/
def groupByTs : List Tick → List (ℤ × List Tick)
  | [] => []
  | r :: rest =>
    match groupByTs rest with
    | [] => [(r.timestamp, [r])]
    | (t, g) :: gs =>
      if r.timestamp = t then (t, r :: g) :: gs
      else (r.timestamp, [r]) :: (t, g) :: gs

/-- The per-timestamp market-update loop:
`for _, row in group.iterrows(): trader.update_market(pair, data_dict)`. -/
def processGroup (trader : Trader) : List Tick → Except String Trader
  | [] => .ok trader
  | r :: rest =>
    match trader.update_market r.symbol r.close with
    | .error e => .error e
    | .ok t' => processGroup t' rest

/-- The per-timestamp order loop: each order is executed and then
unconditionally appended (with timestamp and a fresh id) to the result
table. -/
def processOrders (trader : Trader) (orders : List OrderRequest) (ts : ℤ)
    (nextId : ℕ) (ledger : List LedgerRow) :
    Except String (Trader × ℕ × List LedgerRow) :=
  match orders with
  | [] => .ok (trader, nextId, ledger)
  | o :: rest =>
    match trader.execute o with
    | .error e => .error e
    | .ok t' =>
      processOrders t' rest ts (nextId + 1)
        (ledger ++ [⟨nextId, ts, o.pair, o.side, o.qty⟩])

/-- A strategy: carries its own state `σ`, sees the batch of ticks for the
timestamp and the trader's (aliased) balances, returns orders. -/
def Strategy (σ : Type) : Type :=
  σ → List Tick → List (String × ℚ) → σ × List OrderRequest

/-- The main backtest loop over the timestamp groups. -/
def backtestLoop {σ : Type} (strat : Strategy σ) :
    σ → Trader → List (ℤ × List Tick) → ℕ → List LedgerRow →
    Except String (List LedgerRow × Trader)
  | _, trader, [], _, ledger => .ok (ledger, trader)
  | s, trader, (ts, rows) :: rest, nid, ledger =>
    match processGroup trader rows with
    | .error e => .error e
    | .ok t1 =>
      match strat s rows t1.balances with
      | (s', orders) =>
        match processOrders t1 orders ts nid ledger with
        | .error e => .error e
        | .ok (t2, nid', ledger') => backtestLoop strat s' t2 rest nid' ledger'

/-- Model of `run_backtest(combined_data, fee, balances, strategy)`: build the
Trader, overwrite its equity history with `[initial_portfolio_value]`,
then replay the sorted, grouped table. Returns the ledger and the final
trader. -/
def run_backtest {σ : Type} (combined : List Tick) (fee : ℚ)
    (balances : List (String × ℚ)) (strat : Strategy σ) (s0 : σ) :
    Except String (List LedgerRow × Trader) :=
  let trader := Trader.init balances fee
  let sorted := sortTicks combined
  match initPV balances (firstPrices sorted) with
  | .error e => .error e
  | .ok pv =>
    backtestLoop strat s0 { trader with equity_history := .list [pv] }
      (groupByTs sorted) 0 []

/-! ## calculate_score (src/backtesting/score.py) -/

/-- One row of the trades table consumed by `calculate_score`. -/
structure STrade : Type where
  timestamp : ℤ
  pair : String
  side : String
  qty : ℚ
deriving DecidableEq, Repr

/-- One row of the price table consumed by `calculate_score`. -/
structure PriceRow : Type where
  timestamp : ℤ
  symbol : String
  close : ℚ
deriving DecidableEq, Repr

/-- Stable insertion by timestamp (step of `sort_values('timestamp')`). -/
def insertByTs {α : Type} (ts : α → ℤ) (x : α) : List α → List α
  | [] => [x]
  | y :: ys => if ts y ≤ ts x then y :: insertByTs ts x ys else x :: y :: ys

/-- Stable sort by timestamp (`sort_values('timestamp')`). -/
def sortByTs {α : Type} (ts : α → ℤ) (l : List α) : List α :=
  l.foldl (fun acc x => insertByTs ts x acc) []

/-- The price lookup keyed by timestamp and symbol
(`price_data.set_index(['timestamp','symbol'])['close']`). -/
def priceGet (pd : List PriceRow) (t : ℤ) (sym : String) : Option ℚ :=
  (pd.find? (fun r => r.timestamp == t && r.symbol == sym)).map (·.close)

/-- Drop consecutive duplicates of a sorted list
(`sorted(price_data['timestamp'].unique())`). -/
def dedupTs : List ℤ → List ℤ
  | [] => []
  | [x] => [x]
  | x :: y :: r => if x = y then dedupTs (y :: r) else x :: dedupTs (y :: r)

/-- The running accumulators of the reconstruction walk. -/
structure ScoreState : Type where
  balances : List (String × ℚ)
  turnover : ℚ
  fees_paid : ℚ
deriving DecidableEq, Repr

/-- One trade of the reconstruction (the loop body of `calculate_score`):
turnover gains the absolute notional, a buy debits `fiat` by
`notional*(1+fee_rate)` and credits the base asset, a sell credits `fiat`
by `notional*(1-fee_rate)` and debits the base asset; `fees_paid` gains
`notional*fee_rate` on both sides. -/
def applyTradeScore (fee_rate : ℚ) (st : ScoreState) (pair side : String)
    (qty price : ℚ) : Except String ScoreState :=
  let asset := firstPart pair
  let notional := qty * price
  let turnover := st.turnover + |notional|
  if side = "buy" then
    let cost := notional * (1 + fee_rate)
    match dlookup st.balances "fiat" with
    | none => .error "KeyError: fiat"
    | some f =>
      let bal1 := dinsert st.balances "fiat" (f - cost)
      let bal2 := dinsert bal1 asset ((dlookup bal1 asset).getD 0 + qty)
      .ok ⟨bal2, turnover, st.fees_paid + notional * fee_rate⟩
  else if side = "sell" then
    let proceeds := notional * (1 - fee_rate)
    match dlookup st.balances "fiat" with
    | none => .error "KeyError: fiat"
    | some f =>
      let bal1 := dinsert st.balances "fiat" (f + proceeds)
      let bal2 := dinsert bal1 asset ((dlookup bal1 asset).getD 0 - qty)
      .ok ⟨bal2, turnover, st.fees_paid + notional * fee_rate⟩
  else
    .ok { st with turnover := turnover }

/-- Apply every trade whose timestamp is `t`, in ledger order, pricing each
at `price_lookup.loc[(t, pair)]` (a missing price is a KeyError). -/
def applyTradesAt (fee_rate : ℚ) (pd : List PriceRow) (t : ℤ) :
    ScoreState → List STrade → Except String ScoreState
  | st, [] => .ok st
  | st, tr :: rest =>
    if tr.timestamp = t then
      match priceGet pd t tr.pair with
      | none => .error "KeyError: price_lookup.loc"
      | some price =>
        match applyTradeScore fee_rate st tr.pair tr.side tr.qty price with
        | .error e => .error e
        | .ok st' => applyTradesAt fee_rate pd t st' rest
    else applyTradesAt fee_rate pd t st rest

/-- Equity at timestamp `t`: fiat plus `amt * price_lookup.get((t,
asset+"/fiat"), 0.0)` over the non-fiat balances, in insertion order. -/
def equityAt (pd : List PriceRow) (t : ℤ) (balances : List (String × ℚ)) :
    Except String ℚ :=
  match dlookup balances "fiat" with
  | none => .error "KeyError: fiat"
  | some f =>
    .ok (balances.foldl
      (fun acc kv =>
        if kv.1 = "fiat" then acc
        else acc + kv.2 * (priceGet pd t (kv.1 ++ "/fiat")).getD 0)
      f)

/-- The reconstruction walk over the distinct price timestamps: apply the
matching trades, then record one `(timestamp, equity)` point. -/
def scoreWalk (fee_rate : ℚ) (pd : List PriceRow) (trades : List STrade) :
    ScoreState → List ℤ → Except String (ScoreState × List (ℤ × ℚ))
  | st, [] => .ok (st, [])
  | st, t :: ts =>
    match applyTradesAt fee_rate pd t st trades with
    | .error e => .error e
    | .ok st' =>
      match equityAt pd t st'.balances with
      | .error e => .error e
      | .ok eq =>
        match scoreWalk fee_rate pd trades st' ts with
        | .error e => .error e
        | .ok (stF, rest) => .ok (stF, (t, eq) :: rest)

/-- Model of `eq.pct_change().dropna()`: period-over-period relative changes, first
point dropped. -/
def pctChange : List ℚ → List ℚ
  | x :: y :: rest => (y - x) / x :: pctChange (y :: rest)
  | _ => []

/-- Elapsed seconds `(eq_df.index[-1] - eq_df.index[0]).total_seconds()`
divided by the seconds of a 365-day year. -/
def yearsOfEq (equity : List (ℤ × ℚ)) : ℚ :=
  ((((equity.getLast?.map Prod.fst).getD 0
      - (equity.head?.map Prod.fst).getD 0 : ℤ) : ℚ)) / (365 * 24 * 3600)

/-- Continuation of `eq.cummax()` with current maximum `m`. -/
def runningMaxAux (m : ℚ) : List ℚ → List ℚ
  | [] => []
  | x :: xs => max m x :: runningMaxAux (max m x) xs

/-- Model of `eq.cummax()`. -/
def runningMax : List ℚ → List ℚ
  | [] => []
  | x :: xs => x :: runningMaxAux x xs

/-- Elementwise `(eq - running_max) / running_max`. -/
def drawdowns (eq : List ℚ) : List ℚ :=
  List.zipWith (fun e m => (e - m) / m) eq (runningMax eq)

/-- Model of `.min()` of a series (none on an empty series). -/
def listMin : List ℚ → Option ℚ
  | [] => none
  | x :: xs =>
    match listMin xs with
    | none => some x
    | some m => some (min x m)

/-- Model of `((eq - running_max) / running_max).min()` — the max drawdown
of an equity curve. -/
def maxDrawdown (eq : List ℚ) : Option ℚ :=
  listMin (drawdowns eq)

/-- The rational-valued part of the report of `calculate_score` (the
annualized return, volatility and Sharpe involve real roots and are not
needed by any claim; every other output is exact). -/
structure ScoreCore : Type where
  initial_equity : ℚ
  final_equity : ℚ
  abs_pnl : ℚ
  pct_pnl : ℚ
  equity : List (ℤ × ℚ)
  returns : List ℚ
  years : ℚ
  turnover : ℚ
  fees_paid : ℚ
  max_drawdown : Option ℚ
deriving DecidableEq, Repr

/-- Model of `calculate_score(trades, price_data, initial_balances, fee_bps)`
(src/backtesting/score.py): sort both tables, value the initial balances at
the earliest price timestamp, replay the trade ledger over the distinct
price timestamps, then fail when `years <= 0` or the returns series is
empty, and otherwise report the metrics. -/
def calculate_score (trades : List STrade) (price_data : List PriceRow)
    (initial_balances : List (String × ℚ)) (fee_bps : ℚ) :
    Except String ScoreCore :=
  let strades := sortByTs STrade.timestamp trades
  let pd := sortByTs PriceRow.timestamp price_data
  match pd.head? with
  | none => .error "IndexError: iloc"
  | some r0 =>
    match equityAt pd r0.timestamp initial_balances with
    | .error e => .error e
    | .ok init_eq =>
      let fee_rate := fee_bps / 10000
      let ts := dedupTs (pd.map (·.timestamp))
      match scoreWalk fee_rate pd strades ⟨initial_balances, 0, 0⟩ ts with
      | .error e => .error e
      | .ok (st, equity) =>
        let eqvals := equity.map (·.2)
        let returns := pctChange eqvals
        let years := yearsOfEq equity
        if years ≤ 0 ∨ returns = [] then
          .error "Not enough data to annualize."
        else
          let final_eq := (eqvals.getLast?).getD 0
          .ok { initial_equity := init_eq
                final_equity := final_eq
                abs_pnl := final_eq - init_eq
                pct_pnl := (final_eq - init_eq) / init_eq * 100
                equity := equity
                returns := returns
                years := years
                turnover := st.turnover
                fees_paid := st.fees_paid
                max_drawdown := maxDrawdown eqvals }

/-- A small concrete reachable trader state (fiat 1000, two token_1, one
known price, fee 10%) used to instantiate theorems on concrete inputs. -/
def sampleTrader : Trader where
  balances := [("fiat", 1000), ("token_1", 2)]
  prices := [("token_1/fiat", some 10), ("token_2/fiat", none),
             ("token_1/token_2", none)]
  first_prices := [("token_1/fiat", some 10), ("token_2/fiat", none),
                   ("token_1/token_2", none)]
  first_update := [("token_1/fiat", true), ("token_2/fiat", false),
                   ("token_1/token_2", false)]
  equity_history := .list [1020]
  turnover := 0
  trade_count := 0
  total_fees_paid := 0
  fee := 1/10

/-- The trader state reached by the first successful market update in the
C10 scenario below. -/
def firstUpdatedTrader : Trader where
  balances := [("fiat", 100), ("token_1", 0), ("token_2", 0)]
  prices := [("token_1/fiat", some 10), ("token_2/fiat", none),
             ("token_1/token_2", none)]
  first_prices := [("token_1/fiat", some 10), ("token_2/fiat", none),
                   ("token_1/token_2", none)]
  first_update := [("token_1/fiat", true), ("token_2/fiat", false),
                   ("token_1/token_2", false)]
  equity_history := .list [100, 100]
  turnover := 0
  trade_count := 0
  total_fees_paid := 0
  fee := 0

/-! ## Dictionary and string lemmas -/

theorem string_beq_eq_decide (a b : String) : (a == b) = decide (a = b) := by
  by_cases h : a = b <;> simp [h]

theorem dlookup_dinsert_self {α : Type} (d : List (String × α)) (k : String)
    (v : α) : dlookup (dinsert d k v) k = some v := by
  induction d with
  | nil => simp [dlookup, dinsert]
  | cons p tl ih =>
    by_cases h : p.1 = k
    · simp [dinsert, dlookup, string_beq_eq_decide, h]
    · simp [dinsert, dlookup, string_beq_eq_decide, h, ih]

theorem dlookup_dinsert_ne {α : Type} (d : List (String × α))
    {k k' : String} (v : α) (h : k' ≠ k) :
    dlookup (dinsert d k v) k' = dlookup d k' := by
  induction d with
  | nil => simp [dlookup, dinsert, string_beq_eq_decide, h, Ne.symm h]
  | cons p tl ih =>
    by_cases hp : p.1 = k
    · simp [dinsert, dlookup, string_beq_eq_decide, hp, h, Ne.symm h]
    · by_cases hp' : p.1 = k'
      · simp [dinsert, dlookup, string_beq_eq_decide, hp, hp', h, Ne.symm h]
      · simp [dinsert, dlookup, string_beq_eq_decide, hp, hp', h, Ne.symm h,
          ih]

theorem split_token1_fiat :
    splitPair "token_1/fiat" = some ("token_1", "fiat") := by decide

theorem split_token2_fiat :
    splitPair "token_2/fiat" = some ("token_2", "fiat") := by decide

theorem split_token1_token2 :
    splitPair "token_1/token_2" = some ("token_1", "token_2") := by decide

/-! ## Helper lemmas about committed trades -/

/-- A funded buy at a known price commits with the exact updates of the
source. -/
theorem execute_buy_commit (t : Trader) (o : OrderRequest) (b q : String)
    (p bq bb : ℚ)
    (hs : splitPair o.pair = some (b, q))
    (hside : o.side = "buy")
    (hp : dlookup t.prices o.pair = some (some p))
    (hq : dlookup t.balances q = some bq)
    (hb : dlookup t.balances b = some bb)
    (hbne : b ≠ q)
    (hfund : o.qty * p + o.qty * p * t.fee ≤ bq) :
    t.execute o = .ok { t with
      balances := dinsert
        (dinsert t.balances q (bq - (o.qty * p + o.qty * p * t.fee))) b
        (bb + o.qty),
      turnover := t.turnover + (o.qty * p + o.qty * p * t.fee),
      total_fees_paid := t.total_fees_paid + o.qty * p * t.fee,
      trade_count := t.trade_count + 1 } := by
  have hb1 : dlookup
      (dinsert t.balances q (bq - (o.qty * p + o.qty * p * t.fee))) b
      = some bb := by
    rw [dlookup_dinsert_ne _ _ hbne, hb]
  simp [Trader.execute, hs, hp, hside, hq, hb1, hfund]

/-- A funded sell at a known price commits with the exact updates of the
source. -/
theorem execute_sell_commit (t : Trader) (o : OrderRequest) (b q : String)
    (p bq bb : ℚ)
    (hs : splitPair o.pair = some (b, q))
    (hside : o.side = "sell")
    (hp : dlookup t.prices o.pair = some (some p))
    (hq : dlookup t.balances q = some bq)
    (hb : dlookup t.balances b = some bb)
    (hbne : b ≠ q)
    (hfund : o.qty ≤ bb) :
    t.execute o = .ok { t with
      balances := dinsert
        (dinsert t.balances q (bq + (o.qty * p - o.qty * p * t.fee))) b
        (bb - o.qty),
      turnover := t.turnover + o.qty * p,
      total_fees_paid := t.total_fees_paid + o.qty * p * t.fee,
      trade_count := t.trade_count + 1 } := by
  have hb1 : dlookup
      (dinsert t.balances q (bq + (o.qty * p - o.qty * p * t.fee))) b
      = some bb := by
    rw [dlookup_dinsert_ne _ _ hbne, hb]
  simp [Trader.execute, hs, hp, hside, hq, hb, hb1, hfund]

/-! ## Claims C3, C4, C5 -/

/-- C5: for every committed buy at price p with fee f, execute decreases
balances[quote] by exactly qty*p*(1+f), increases balances[base] by qty,
adds qty*p*(1+f) to turnover and qty*p*f to fees paid; for every committed
sell it increases balances[quote] by qty*p*(1-f), decreases balances[base]
by qty, adds qty*p to turnover and qty*p*f to fees paid. -/
theorem C5_committed_trade_accounting (t : Trader) (o : OrderRequest)
    (b q : String) (p bq bb : ℚ)
    (hs : splitPair o.pair = some (b, q)) (hbne : b ≠ q)
    (hp : dlookup t.prices o.pair = some (some p))
    (hq : dlookup t.balances q = some bq)
    (hb : dlookup t.balances b = some bb) :
    (o.side = "buy" → o.qty * p * (1 + t.fee) ≤ bq →
      ∃ t', t.execute o = .ok t' ∧
        dlookup t'.balances q = some (bq - o.qty * p * (1 + t.fee)) ∧
        dlookup t'.balances b = some (bb + o.qty) ∧
        t'.turnover = t.turnover + o.qty * p * (1 + t.fee) ∧
        t'.total_fees_paid = t.total_fees_paid + o.qty * p * t.fee ∧
        t'.trade_count = t.trade_count + 1) ∧
    (o.side = "sell" → o.qty ≤ bb →
      ∃ t', t.execute o = .ok t' ∧
        dlookup t'.balances q = some (bq + o.qty * p * (1 - t.fee)) ∧
        dlookup t'.balances b = some (bb - o.qty) ∧
        t'.turnover = t.turnover + o.qty * p ∧
        t'.total_fees_paid = t.total_fees_paid + o.qty * p * t.fee ∧
        t'.trade_count = t.trade_count + 1) := by
  constructor
  · intro hside hfund
    have hr : o.qty * p * (1 + t.fee) = o.qty * p + o.qty * p * t.fee := by
      ring
    have hfund' : o.qty * p + o.qty * p * t.fee ≤ bq := by linarith
    refine ⟨_, execute_buy_commit t o b q p bq bb hs hside hp hq hb hbne
      hfund', ?_, ?_, ?_, ?_, ?_⟩
    · rw [dlookup_dinsert_ne _ _ (Ne.symm hbne), dlookup_dinsert_self]
      congr 1; ring
    · rw [dlookup_dinsert_self]
    · show t.turnover + (o.qty * p + o.qty * p * t.fee) = _
      rw [hr]
    · rfl
    · rfl
  · intro hside hfund
    refine ⟨_, execute_sell_commit t o b q p bq bb hs hside hp hq hb hbne
      hfund, ?_, ?_, ?_, ?_, ?_⟩
    · rw [dlookup_dinsert_ne _ _ (Ne.symm hbne), dlookup_dinsert_self]
      congr 1; ring
    · rw [dlookup_dinsert_self]
    · rfl
    · rfl
    · rfl

/-- Witness for C5: a concrete committed buy and a concrete committed
sell. -/
theorem C5_witness :
    (∃ t', sampleTrader.execute ⟨"token_1/fiat", "buy", 5⟩ = .ok t' ∧
      dlookup t'.balances "fiat"
        = some (1000 - 5 * 10 * (1 + sampleTrader.fee)) ∧
      dlookup t'.balances "token_1" = some (2 + 5) ∧
      t'.turnover = sampleTrader.turnover + 5 * 10 * (1 + sampleTrader.fee) ∧
      t'.total_fees_paid
        = sampleTrader.total_fees_paid + 5 * 10 * sampleTrader.fee ∧
      t'.trade_count = sampleTrader.trade_count + 1) ∧
    (∃ t', sampleTrader.execute ⟨"token_1/fiat", "sell", 1⟩ = .ok t' ∧
      dlookup t'.balances "fiat"
        = some (1000 + 1 * 10 * (1 - sampleTrader.fee)) ∧
      dlookup t'.balances "token_1" = some (2 - 1) ∧
      t'.turnover = sampleTrader.turnover + 1 * 10 ∧
      t'.total_fees_paid
        = sampleTrader.total_fees_paid + 1 * 10 * sampleTrader.fee ∧
      t'.trade_count = sampleTrader.trade_count + 1) := by
  constructor
  · exact (C5_committed_trade_accounting sampleTrader
      ⟨"token_1/fiat", "buy", 5⟩ "token_1" "fiat" 10 1000 2
      (by decide) (by decide) (by decide) (by decide) (by decide)).1 rfl
      (by show (5 : ℚ) * 10 * (1 + 1/10) ≤ 1000; norm_num)
  · exact (C5_committed_trade_accounting sampleTrader
      ⟨"token_1/fiat", "sell", 1⟩ "token_1" "fiat" 10 1000 2
      (by decide) (by decide) (by decide) (by decide) (by decide)).2 rfl
      (by show (1 : ℚ) ≤ 2; norm_num)

/-- C4: an order whose precondition fails (unknown last price, underfunded
buy, or underfunded sell) is a silent no-op: execute returns the trader
unchanged (balances, turnover, fees paid, trade count) and raises no
error. -/
theorem C4_failed_precondition_is_silent_noop (t : Trader) (o : OrderRequest)
    (h :
      ((∃ b q, splitPair o.pair = some (b, q)) ∧
        dlookup t.prices o.pair = some none) ∨
      (∃ b q p bq, splitPair o.pair = some (b, q) ∧ o.side = "buy" ∧
        dlookup t.prices o.pair = some (some p) ∧
        dlookup t.balances q = some bq ∧ bq < o.qty * p * (1 + t.fee)) ∨
      (∃ b q p bb, splitPair o.pair = some (b, q) ∧ o.side = "sell" ∧
        dlookup t.prices o.pair = some (some p) ∧
        dlookup t.balances b = some bb ∧ bb < o.qty)) :
    t.execute o = .ok t := by
  rcases h with ⟨⟨b, q, hs⟩, hp⟩ | ⟨b, q, p, bq, hs, hside, hp, hq, hlt⟩ |
    ⟨b, q, p, bb, hs, hside, hp, hb, hlt⟩
  · simp [Trader.execute, hs, hp]
  · have hr : o.qty * p * (1 + t.fee) = o.qty * p + o.qty * p * t.fee := by
      ring
    have hn : ¬ (o.qty * p + o.qty * p * t.fee ≤ bq) := by
      intro hle; rw [hr] at hlt; linarith
    simp [Trader.execute, hs, hp, hside, hq, hn]
  · have hn : ¬ (o.qty ≤ bb) := not_le.mpr hlt
    simp [Trader.execute, hs, hp, hside, hb, hn]

/-- Witness for C4: on a fresh trader no pair has a price yet, so a buy is
silently skipped and the trader is returned unchanged. -/
theorem C4_witness :
    (Trader.init [("fiat", 100)] 0).execute ⟨"token_1/fiat", "buy", 5⟩
      = .ok (Trader.init [("fiat", 100)] 0) :=
  C4_failed_precondition_is_silent_noop _ _
    (Or.inl ⟨⟨"token_1", "fiat", by decide⟩, by decide⟩)

/-- C3 (amended): execute does not raise for an unsupported side — any
order whose side is neither "buy" nor "sell" (on a pair that splits and has
a prices entry) is silently ignored, the trader returned unchanged; qty is
never validated, so non-positive quantities are not errors either. -/
theorem C3_unsupported_side_no_error (t : Trader) (o : OrderRequest)
    (b q : String) (po : Option ℚ)
    (hs : splitPair o.pair = some (b, q))
    (hp : dlookup t.prices o.pair = some po)
    (h1 : o.side ≠ "buy") (h2 : o.side ≠ "sell") :
    t.execute o = .ok t := by
  cases po with
  | none => simp [Trader.execute, hs, hp]
  | some p => simp [Trader.execute, hs, hp, h1, h2]

/-- Witness for C3 (amended): a "cancel"-side order is silently ignored. -/
theorem C3_witness :
    sampleTrader.execute ⟨"token_1/fiat", "cancel", 3⟩ = .ok sampleTrader :=
  C3_unsupported_side_no_error sampleTrader _ "token_1" "fiat" (some 10)
    (by decide) (by decide) (by decide) (by decide)

/-- Counterexample to C3 as stated: an order with side "hold" raises no
error (execute returns the unchanged trader), and an order with negative
qty -1 is not rejected either — the sell branch commits it and increments
trade_count. -/
theorem C3_counterexample :
    sampleTrader.execute ⟨"token_1/fiat", "hold", 1⟩ = .ok sampleTrader ∧
    (sampleTrader.execute ⟨"token_1/fiat", "sell", -1⟩).map
      (fun t => t.trade_count) = .ok 1 := by
  constructor
  · norm_num +decide [Trader.execute, sampleTrader, dlookup, dinsert,
      split_token1_fiat, string_beq_eq_decide]
  · norm_num +decide [Trader.execute, sampleTrader, dlookup, dinsert,
      split_token1_fiat, string_beq_eq_decide, Except.map]

/-! ## Claims C9, C10 -/

/-- Unknown pairs make `update_market` fail on the `first_update` lookup. -/
theorem update_market_unknown_pair_error (bal : List (String × ℚ))
    (fee : ℚ) (pair : String) (c : ℚ) (h1 : pair ≠ "token_1/fiat")
    (h2 : pair ≠ "token_2/fiat") (h3 : pair ≠ "token_1/token_2") :
    (Trader.init bal fee).update_market pair c
      = .error "KeyError: first_update" := by
  simp [Trader.update_market, Trader.init, dlookup, string_beq_eq_decide,
    Ne.symm h1, Ne.symm h2, Ne.symm h3]

/-- While `equity_history` is a scalar, the equity append always fails. -/
theorem appendEquity_scalar_error (u : Trader) (x : ℚ)
    (hsc : u.equity_history = .scalar x) :
    ∃ e, u.appendEquity = .error e := by
  cases hpv : u.calculate_portfolio_value with
  | error e => exact ⟨e, by simp [Trader.appendEquity, hpv]⟩
  | ok v =>
    exact ⟨"AttributeError: float has no append",
      by simp [Trader.appendEquity, hpv, hsc]⟩

/-- While `equity_history` is still the `__init__` scalar, no
`update_market` call can succeed. -/
theorem update_market_scalar_never_ok (t : Trader) (pair : String) (c : ℚ)
    (x : ℚ) (hsc : t.equity_history = .scalar x) :
    ∃ e, t.update_market pair c = .error e := by
  simp only [Trader.update_market]
  cases hfu : dlookup t.first_update pair with
  | none => exact ⟨_, rfl⟩
  | some fu =>
    dsimp only
    split <;> exact appendEquity_scalar_error _ x hsc

/-- C9: the trader is total only for the three hard-coded pairs — for every
other pair symbol, update_market fails on the first_update key lookup, and
execute (on a well-formed BASE/QUOTE symbol) fails on the last-price key
lookup. -/
theorem C9_hardcoded_pairs_only :
    (∀ (bal : List (String × ℚ)) (fee : ℚ) (pair : String) (c : ℚ),
      pair ≠ "token_1/fiat" → pair ≠ "token_2/fiat" →
      pair ≠ "token_1/token_2" →
      (Trader.init bal fee).update_market pair c
        = .error "KeyError: first_update") ∧
    (∀ (bal : List (String × ℚ)) (fee : ℚ) (o : OrderRequest)
      (b q : String), splitPair o.pair = some (b, q) →
      o.pair ≠ "token_1/fiat" → o.pair ≠ "token_2/fiat" →
      o.pair ≠ "token_1/token_2" →
      (Trader.init bal fee).execute o = .error "KeyError: prices") := by
  constructor
  · exact update_market_unknown_pair_error
  · intro bal fee o b q hs h1 h2 h3
    simp [Trader.execute, Trader.init, hs, dlookup, string_beq_eq_decide,
      Ne.symm h1, Ne.symm h2, Ne.symm h3]

/-- Witness for C9 on the pair "token_3/fiat". -/
theorem C9_witness :
    (Trader.init [("fiat", 100)] 0).update_market "token_3/fiat" 5
        = .error "KeyError: first_update" ∧
    (Trader.init [("fiat", 100)] 0).execute ⟨"token_3/fiat", "buy", 1⟩
        = .error "KeyError: prices" :=
  ⟨C9_hardcoded_pairs_only.1 _ 0 _ 5 (by decide) (by decide) (by decide),
   C9_hardcoded_pairs_only.2 _ 0 _ "token_3" "fiat" (by decide) (by decide)
     (by decide) (by decide)⟩

/-- C10: on a freshly constructed Trader every first update_market call
fails (`__init__` stores the scalar 0.0 as equity_history, which cannot be
appended to; unknown pairs fail even earlier), and after reassigning
equity_history to a one-element list — exactly what run_backtest does
before the loop — the same call succeeds. -/
theorem C10_fresh_trader_update_always_fails :
    (∀ (bal : List (String × ℚ)) (fee : ℚ) (pair : String) (c : ℚ),
      ∃ e, (Trader.init bal fee).update_market pair c = .error e) ∧
    (∃ t', ({ (Trader.init
          [("fiat", 100), ("token_1", 0), ("token_2", 0)] 0) with
        equity_history := .list [100] }.update_market "token_1/fiat" 10)
      = .ok t') := by
  constructor
  · intro bal fee pair c
    exact update_market_scalar_never_ok _ _ _ 0 rfl
  · refine ⟨firstUpdatedTrader, ?_⟩
    norm_num +decide [Trader.update_market, Trader.appendEquity,
      Trader.init, Trader.calculate_portfolio_value, firstUpdatedTrader,
      dlookup, dinsert, string_beq_eq_decide]

/-! ## Claims C1, C6 -/

/-- A successful equity append extends the history list by one value. -/
theorem appendEquity_ok_history (u : Trader) (t' : Trader)
    (h : u.appendEquity = .ok t') :
    ∃ xs v, u.equity_history = .list xs ∧
      t'.equity_history = .list (xs ++ [v]) := by
  unfold Trader.appendEquity at h
  cases hpv : u.calculate_portfolio_value with
  | error e => rw [hpv] at h; cases h
  | ok v =>
    rw [hpv] at h
    cases heh : u.equity_history with
    | scalar x => rw [heh] at h; cases h
    | list xs =>
      rw [heh] at h
      cases h
      exact ⟨xs, v, rfl, rfl⟩

/-- C6 (amended): every successful update_market call appends exactly one
equity value to the history; when several pairs update at one timestamp the
engine therefore keeps one point per per-pair update — including the
intermediate, partially-updated equities — and the history carries no
timestamps at all. -/
theorem C6_update_market_appends_one_point (t : Trader) (pair : String)
    (c : ℚ) (t' : Trader) (h : t.update_market pair c = .ok t') :
    ∃ xs v, t.equity_history = .list xs ∧
      t'.equity_history = .list (xs ++ [v]) := by
  simp only [Trader.update_market] at h
  cases hfu : dlookup t.first_update pair with
  | none => rw [hfu] at h; cases h
  | some fu =>
    rw [hfu] at h
    dsimp only at h
    by_cases hf : fu = true
    · rw [if_pos hf] at h
      obtain ⟨xs, v, h1, h2⟩ := appendEquity_ok_history _ _ h
      exact ⟨xs, v, h1, h2⟩
    · rw [if_neg hf] at h
      obtain ⟨xs, v, h1, h2⟩ := appendEquity_ok_history _ _ h
      exact ⟨xs, v, h1, h2⟩

/-- Witness for C6 (amended): the concrete first update of the C10 scenario
appends one value. -/
theorem C6_witness :
    ∃ xs v,
      ({ (Trader.init [("fiat", 100), ("token_1", 0), ("token_2", 0)] 0) with
           equity_history := .list [100] } : Trader).equity_history
         = .list xs ∧
      firstUpdatedTrader.equity_history = .list (xs ++ [v]) :=
  C6_update_market_appends_one_point _ "token_1/fiat" 10 firstUpdatedTrader
    (by norm_num +decide [Trader.update_market, Trader.appendEquity,
      Trader.init, Trader.calculate_portfolio_value, firstUpdatedTrader,
      dlookup, dinsert, string_beq_eq_decide])

/-- Counterexample to C6 as stated: two pairs ticking at the one timestamp
0 leave three equity values in the history — the initial value 130, the
intermediate partially-updated 110 (token_2 not yet priced), and the final
130 — not one point for the single distinct timestamp, and the
intermediate value is kept. -/
theorem C6_counterexample :
    (run_backtest [⟨0, "token_1/fiat", 10⟩, ⟨0, "token_2/fiat", 20⟩] 0
        [("fiat", 100), ("token_1", 1), ("token_2", 1)]
        (fun (_ : Unit) _ _ => ((), [])) ()).map
      (fun r => r.2.equity_history)
      = .ok (.list [130, 110, 130]) := by
  norm_num +decide [run_backtest, Trader.init, sortTicks, insertTick,
    firstPrices, initPV, groupByTs, backtestLoop, processGroup, processOrders,
    Trader.update_market, Trader.appendEquity, Trader.calculate_portfolio_value,
    string_beq_eq_decide, dlookup, dinsert, Except.map]

/-- C1 (amended): run_backtest's ledger gets exactly one row per order the
strategy returns, whether or not Trader.execute committed it — the order
loop appends a row unconditionally after every non-raising execute call. -/
theorem C1_ledger_row_per_returned_order (trader : Trader)
    (orders : List OrderRequest) (ts : ℤ) (nid : ℕ)
    (ledger : List LedgerRow) (t' : Trader) (nid' : ℕ)
    (ledger' : List LedgerRow)
    (h : processOrders trader orders ts nid ledger
      = .ok (t', nid', ledger')) :
    ledger'.length = ledger.length + orders.length := by
  induction orders generalizing trader nid ledger with
  | nil =>
    simp only [processOrders] at h
    cases h
    simp
  | cons o rest ih =>
    simp only [processOrders] at h
    cases hex : trader.execute o with
    | error e => rw [hex] at h; cases h
    | ok t2 =>
      rw [hex] at h
      have hrec := ih t2 (nid + 1)
        (ledger ++ [⟨nid, ts, o.pair, o.side, o.qty⟩]) h
      simp [List.length_append] at hrec ⊢
      omega

/-- Witness for C1 (amended): two returned orders (one unknown side, one
underfunded buy) both produce ledger rows. -/
theorem C1_witness :
    ([⟨0, 0, "token_1/fiat", "hold", 1⟩,
      ⟨1, 0, "token_1/fiat", "buy", 200⟩] : List LedgerRow).length
      = ([] : List LedgerRow).length
        + ([⟨"token_1/fiat", "hold", 1⟩,
            ⟨"token_1/fiat", "buy", 200⟩] : List OrderRequest).length :=
  C1_ledger_row_per_returned_order sampleTrader _ 0 0 [] sampleTrader 2 _
    (by norm_num +decide [processOrders, Trader.execute, sampleTrader,
      split_token1_fiat, string_beq_eq_decide, dlookup, dinsert])

/-- Counterexample to C1 as stated: a buy of 200 at price 10 against 1000
fiat is dropped by Trader.execute (trade_count stays 0, balances
unchanged), yet the returned ledger holds a row for it — so a row appears
without the order having been committed. -/
theorem C1_counterexample :
    (run_backtest [⟨0, "token_1/fiat", 10⟩] 0
        [("fiat", 1000), ("token_1", 0), ("token_2", 0)]
        (fun (_ : Unit) _ _ => ((), [⟨"token_1/fiat", "buy", 200⟩])) ()).map
      (fun r => (r.1, r.2.trade_count, r.2.balances))
      = .ok ([⟨0, 0, "token_1/fiat", "buy", 200⟩], 0,
             [("fiat", 1000), ("token_1", 0), ("token_2", 0)]) := by
  norm_num +decide [run_backtest, Trader.init, sortTicks, insertTick,
    firstPrices, initPV, groupByTs, backtestLoop, processGroup, processOrders,
    Trader.update_market, Trader.appendEquity, Trader.calculate_portfolio_value,
    Trader.execute, split_token1_fiat, string_beq_eq_decide, dlookup, dinsert,
    Except.map]

/-! ## Claim C8 -/

theorem listMin_mem (l : List ℚ) (m : ℚ) (h : listMin l = some m) :
    m ∈ l := by
  induction l generalizing m with
  | nil => cases h
  | cons x xs ih =>
    simp only [listMin] at h
    cases hm : listMin xs with
    | none => rw [hm] at h; cases h; simp
    | some m' =>
      rw [hm] at h
      cases h
      rcases min_cases x m' with ⟨he, _⟩ | ⟨he, _⟩
      · rw [he]; simp
      · rw [he]; simp [ih m' hm]

theorem listMin_some (l : List ℚ) (h : l ≠ []) : ∃ m, listMin l = some m := by
  cases l with
  | nil => exact absurd rfl h
  | cons x xs =>
    simp only [listMin]
    cases listMin xs with
    | none => exact ⟨x, rfl⟩
    | some m' => exact ⟨min x m', rfl⟩

theorem listMin_all_zero (l : List ℚ) (h : l ≠ []) (hz : ∀ x ∈ l, x = 0) :
    listMin l = some 0 := by
  induction l with
  | nil => exact absurd rfl h
  | cons x xs ih =>
    have hx : x = 0 := hz x (by simp)
    simp only [listMin]
    cases hm : listMin xs with
    | none => rw [hx]
    | some m' =>
      have hxs : xs ≠ [] := by
        intro he; rw [he] at hm; cases hm
      have hall := ih hxs (fun z hzz => hz z (by simp [hzz]))
      rw [hm] at hall
      cases hall
      rw [hx]
      simp

theorem drawdown_elem_bounds (xs : List ℚ) (m : ℚ)
    (hx : ∀ x ∈ xs, 0 ≤ x) :
    ∀ d ∈ List.zipWith (fun e mm => (e - mm) / mm) xs (runningMaxAux m xs),
      -1 ≤ d ∧ d ≤ 0 := by
  induction xs generalizing m with
  | nil => simp [runningMaxAux]
  | cons x xs ih =>
    intro d hd
    simp only [runningMaxAux, List.zipWith_cons_cons, List.mem_cons] at hd
    rcases hd with hd | hd
    · subst hd
      have hx0 : 0 ≤ x := hx x (by simp)
      have hM : x ≤ max m x := le_max_right m x
      have hM0 : 0 ≤ max m x := le_trans hx0 hM
      rcases eq_or_lt_of_le hM0 with heq | hpos
      · have hxeq : x = 0 := le_antisymm (heq ▸ hM) hx0
        rw [← heq, hxeq]
        norm_num
      · constructor
        · rw [le_div_iff₀ hpos]
          linarith
        · exact div_nonpos_iff.mpr (Or.inr ⟨by linarith, hM0⟩)
    · exact ih (max m x) (fun y hy => hx y (List.mem_cons_of_mem x hy)) d hd

theorem drawdowns_cons (x : ℚ) (xs : List ℚ) :
    drawdowns (x :: xs)
      = (x - x) / x
        :: List.zipWith (fun e m => (e - m) / m) xs (runningMaxAux x xs) :=
  rfl

theorem runningMaxAux_of_chain (x : ℚ) (xs : List ℚ)
    (h : List.Chain' (· ≤ ·) (x :: xs)) : runningMaxAux x xs = xs := by
  induction xs generalizing x with
  | nil => rfl
  | cons y ys ih =>
    have hxy : x ≤ y := (List.chain'_cons.mp h).1
    have hch : List.Chain' (· ≤ ·) (y :: ys) := (List.chain'_cons.mp h).2
    simp only [runningMaxAux, max_eq_right hxy]
    rw [ih y hch]

/-- C8: for every nonempty equity curve with no negative values, the max
drawdown `((eq - running_max) / running_max).min()` computed by
calculate_score lies in [-1, 0]; and it equals 0 when the curve never dips
below its running peak (i.e. is non-decreasing). -/
theorem C8_max_drawdown_in_unit_interval (eq : List ℚ) (hne : eq ≠ [])
    (hnn : ∀ x ∈ eq, 0 ≤ x) :
    (∃ d, maxDrawdown eq = some d ∧ -1 ≤ d ∧ d ≤ 0) ∧
    (List.Chain' (· ≤ ·) eq → maxDrawdown eq = some 0) := by
  constructor
  · obtain ⟨x, xs, rfl⟩ : ∃ x xs, eq = x :: xs := by
      cases eq with
      | nil => exact absurd rfl hne
      | cons x xs => exact ⟨x, xs, rfl⟩
    have hdd : ∀ d ∈ drawdowns (x :: xs), -1 ≤ d ∧ d ≤ 0 := by
      rw [drawdowns_cons]
      intro d hd
      rcases List.mem_cons.mp hd with hd | hd
      · subst hd; norm_num
      · exact drawdown_elem_bounds xs x (fun y hy => hnn y (by simp [hy]))
          d hd
    have hne' : drawdowns (x :: xs) ≠ [] := by rw [drawdowns_cons]; simp
    obtain ⟨m, hm⟩ := listMin_some _ hne'
    exact ⟨m, hm, (hdd m (listMin_mem _ _ hm)).1,
      (hdd m (listMin_mem _ _ hm)).2⟩
  · intro hchain
    obtain ⟨x, xs, rfl⟩ : ∃ x xs, eq = x :: xs := by
      cases eq with
      | nil => exact absurd rfl hne
      | cons x xs => exact ⟨x, xs, rfl⟩
    have hrm : runningMax (x :: xs) = x :: xs := by
      simp only [runningMax, runningMaxAux_of_chain x xs hchain]
    have hzero : ∀ d ∈ drawdowns (x :: xs), d = 0 := by
      unfold drawdowns
      rw [hrm, List.zipWith_same]
      intro d hd
      rcases List.mem_map.mp hd with ⟨a, _, ha⟩
      rw [← ha]
      simp
    exact listMin_all_zero _ (by rw [drawdowns_cons]; simp) hzero

/-- Witness for C8 on the non-decreasing curve [1, 2]. -/
theorem C8_witness :
    (∃ d, maxDrawdown [1, 2] = some d ∧ -1 ≤ d ∧ d ≤ 0) ∧
    (List.Chain' (· ≤ ·) [(1 : ℚ), 2] → maxDrawdown [1, 2] = some 0) :=
  C8_max_drawdown_in_unit_interval [1, 2] (by simp)
    (by intro x hx; fin_cases hx <;> norm_num)

/-! ## Claim C2 -/

/-- When the pair unpacks into BASE/QUOTE, `pair.split('/')[0]` is BASE. -/
theorem firstPart_of_splitPair {s b q : String}
    (h : splitPair s = some (b, q)) : firstPart s = b := by
  unfold splitPair at h
  unfold firstPart
  cases hc : splitCh s.data with
  | nil => rw [hc] at h; cases h
  | cons g gs =>
    rw [hc] at h
    cases gs with
    | nil => cases h
    | cons g2 gs2 =>
      cases gs2 with
      | nil => cases h; rfl
      | cons g3 gs3 => cases h

/-- The reconstruction's buy update, explicitly. -/
theorem applyTradeScore_buy (fee : ℚ) (st : ScoreState) (pair : String)
    (qty price f : ℚ) (hf : dlookup st.balances "fiat" = some f) :
    applyTradeScore fee st pair "buy" qty price
      = .ok ⟨dinsert (dinsert st.balances "fiat" (f - qty * price * (1 + fee)))
            (firstPart pair)
            ((dlookup
                (dinsert st.balances "fiat" (f - qty * price * (1 + fee)))
                (firstPart pair)).getD 0 + qty),
          st.turnover + |qty * price|,
          st.fees_paid + qty * price * fee⟩ := by
  simp [applyTradeScore, hf]

/-- The reconstruction's sell update, explicitly. -/
theorem applyTradeScore_sell (fee : ℚ) (st : ScoreState) (pair : String)
    (qty price f : ℚ) (hf : dlookup st.balances "fiat" = some f) :
    applyTradeScore fee st pair "sell" qty price
      = .ok ⟨dinsert (dinsert st.balances "fiat" (f + qty * price * (1 - fee)))
            (firstPart pair)
            ((dlookup
                (dinsert st.balances "fiat" (f + qty * price * (1 - fee)))
                (firstPart pair)).getD 0 - qty),
          st.turnover + |qty * price|,
          st.fees_paid + qty * price * fee⟩ := by
  simp [applyTradeScore, hf]

/-- C2 (amended): for a committed trade replayed at the same price and with
non-negative notional, the live ledger and the reconstruction add the same
fees (qty*price*fee on both sides), but the reconstruction adds the plain
notional qty*price to turnover on both sides — equal to the ledger's sell
turnover, but short of the ledger's buy turnover qty*price*(1+fee) — and it
moves the hard-coded "fiat" balance, not the pair's quote leg. -/
theorem C2_reconstruction_vs_ledger (t : Trader) (o : OrderRequest)
    (b q : String) (p bq bb f : ℚ) (st : ScoreState)
    (hs : splitPair o.pair = some (b, q)) (hbne : b ≠ q)
    (hbf : b ≠ "fiat")
    (hp : dlookup t.prices o.pair = some (some p))
    (hq : dlookup t.balances q = some bq)
    (hb : dlookup t.balances b = some bb)
    (hf : dlookup st.balances "fiat" = some f)
    (hpos : 0 ≤ o.qty * p) :
    (o.side = "buy" → o.qty * p + o.qty * p * t.fee ≤ bq →
      ∃ t' st', t.execute o = .ok t' ∧
        applyTradeScore t.fee st o.pair o.side o.qty p = .ok st' ∧
        t'.total_fees_paid - t.total_fees_paid = o.qty * p * t.fee ∧
        st'.fees_paid - st.fees_paid = o.qty * p * t.fee ∧
        t'.turnover - t.turnover = o.qty * p * (1 + t.fee) ∧
        st'.turnover - st.turnover = o.qty * p ∧
        dlookup st'.balances "fiat"
          = some (f - o.qty * p * (1 + t.fee))) ∧
    (o.side = "sell" → o.qty ≤ bb →
      ∃ t' st', t.execute o = .ok t' ∧
        applyTradeScore t.fee st o.pair o.side o.qty p = .ok st' ∧
        t'.total_fees_paid - t.total_fees_paid = o.qty * p * t.fee ∧
        st'.fees_paid - st.fees_paid = o.qty * p * t.fee ∧
        t'.turnover - t.turnover = o.qty * p ∧
        st'.turnover - st.turnover = o.qty * p ∧
        dlookup st'.balances "fiat"
          = some (f + o.qty * p * (1 - t.fee))) := by
  have hfp : firstPart o.pair = b := firstPart_of_splitPair hs
  constructor
  · intro hside hfund
    refine ⟨_, _,
      execute_buy_commit t o b q p bq bb hs hside hp hq hb hbne hfund,
      by rw [hside]; exact applyTradeScore_buy t.fee st o.pair o.qty p f hf,
      ?_, ?_, ?_, ?_, ?_⟩
    · show t.total_fees_paid + o.qty * p * t.fee - t.total_fees_paid = _
      ring
    · show st.fees_paid + o.qty * p * t.fee - st.fees_paid = _
      ring
    · show t.turnover + (o.qty * p + o.qty * p * t.fee) - t.turnover = _
      ring
    · show st.turnover + |o.qty * p| - st.turnover = _
      rw [abs_of_nonneg hpos]; ring
    · show dlookup (dinsert
        (dinsert st.balances "fiat" (f - o.qty * p * (1 + t.fee)))
        (firstPart o.pair) _) "fiat" = _
      rw [hfp, dlookup_dinsert_ne _ _ (Ne.symm hbf), dlookup_dinsert_self]
  · intro hside hfund
    refine ⟨_, _,
      execute_sell_commit t o b q p bq bb hs hside hp hq hb hbne hfund,
      by rw [hside]; exact applyTradeScore_sell t.fee st o.pair o.qty p f hf,
      ?_, ?_, ?_, ?_, ?_⟩
    · show t.total_fees_paid + o.qty * p * t.fee - t.total_fees_paid = _
      ring
    · show st.fees_paid + o.qty * p * t.fee - st.fees_paid = _
      ring
    · show t.turnover + o.qty * p - t.turnover = _
      ring
    · show st.turnover + |o.qty * p| - st.turnover = _
      rw [abs_of_nonneg hpos]; ring
    · show dlookup (dinsert
        (dinsert st.balances "fiat" (f + o.qty * p * (1 - t.fee)))
        (firstPart o.pair) _) "fiat" = _
      rw [hfp, dlookup_dinsert_ne _ _ (Ne.symm hbf), dlookup_dinsert_self]

/-- Witness for C2 (amended) at a concrete committed buy and sell. -/
theorem C2_witness :
    (∃ t' st', sampleTrader.execute ⟨"token_1/fiat", "buy", 5⟩ = .ok t' ∧
      applyTradeScore sampleTrader.fee ⟨sampleTrader.balances, 3, 4⟩
        "token_1/fiat" "buy" 5 10 = .ok st' ∧
      t'.total_fees_paid - sampleTrader.total_fees_paid
        = 5 * 10 * sampleTrader.fee ∧
      st'.fees_paid - (4 : ℚ) = 5 * 10 * sampleTrader.fee ∧
      t'.turnover - sampleTrader.turnover
        = 5 * 10 * (1 + sampleTrader.fee) ∧
      st'.turnover - (3 : ℚ) = 5 * 10 ∧
      dlookup st'.balances "fiat"
        = some (1000 - 5 * 10 * (1 + sampleTrader.fee))) ∧
    (∃ t' st', sampleTrader.execute ⟨"token_1/fiat", "sell", 1⟩ = .ok t' ∧
      applyTradeScore sampleTrader.fee ⟨sampleTrader.balances, 3, 4⟩
        "token_1/fiat" "sell" 1 10 = .ok st' ∧
      t'.total_fees_paid - sampleTrader.total_fees_paid
        = 1 * 10 * sampleTrader.fee ∧
      st'.fees_paid - (4 : ℚ) = 1 * 10 * sampleTrader.fee ∧
      t'.turnover - sampleTrader.turnover = 1 * 10 ∧
      st'.turnover - (3 : ℚ) = 1 * 10 ∧
      dlookup st'.balances "fiat"
        = some (1000 + 1 * 10 * (1 - sampleTrader.fee))) := by
  constructor
  · exact (C2_reconstruction_vs_ledger sampleTrader
      ⟨"token_1/fiat", "buy", 5⟩ "token_1" "fiat" 10 1000 2 1000
      ⟨sampleTrader.balances, 3, 4⟩ (by decide) (by decide) (by decide)
      (by decide) (by decide) (by decide) (by decide)
      (by show (0 : ℚ) ≤ 5 * 10; norm_num)).1 rfl
      (by show (5 : ℚ) * 10 + 5 * 10 * (1/10) ≤ 1000; norm_num)
  · exact (C2_reconstruction_vs_ledger sampleTrader
      ⟨"token_1/fiat", "sell", 1⟩ "token_1" "fiat" 10 1000 2 1000
      ⟨sampleTrader.balances, 3, 4⟩ (by decide) (by decide) (by decide)
      (by decide) (by decide) (by decide) (by decide)
      (by show (0 : ℚ) ≤ 1 * 10; norm_num)).2 rfl
      (by show (1 : ℚ) ≤ 2; norm_num)

/-- Counterexample to C2 as stated: for one committed buy of 1 at price 10
with fee 1/10, the live ledger's turnover grows by qty*price*(1+fee) = 11
while the reconstruction's grows by |qty*price| = 10 — the two passes do
not compute equal turnover. -/
theorem C2_counterexample :
    (sampleTrader.execute ⟨"token_1/fiat", "buy", 1⟩).map
      (fun t => t.turnover) = .ok 11 ∧
    (applyTradeScore sampleTrader.fee ⟨sampleTrader.balances, 0, 0⟩
      "token_1/fiat" "buy" 1 10).map (fun st => st.turnover) = .ok 10 ∧
    (11 : ℚ) ≠ 10 := by
  refine ⟨?_, ?_, by norm_num⟩
  · norm_num +decide [Trader.execute, sampleTrader, split_token1_fiat,
      string_beq_eq_decide, dlookup, dinsert, Except.map]
  · norm_num +decide [applyTradeScore, sampleTrader, firstPart, splitCh,
      string_beq_eq_decide, dlookup, dinsert, Except.map, abs]

/-! ## Claim C7 -/

/-- C7: calculate_score fails with the fatal "Not enough data to
annualize." error — producing no report, so the annualization step never
runs — whenever the elapsed time across the reconstructed equity curve is
≤ 0 or the returns series (percentage changes, first point dropped) is
empty. -/
theorem C7_score_fails_to_annualize (trades : List STrade)
    (price_data : List PriceRow) (bal : List (String × ℚ)) (fee_bps : ℚ)
    (r0 : PriceRow) (ie : ℚ) (st : ScoreState) (equity : List (ℤ × ℚ))
    (h0 : (sortByTs PriceRow.timestamp price_data).head? = some r0)
    (hie : equityAt (sortByTs PriceRow.timestamp price_data)
      r0.timestamp bal = .ok ie)
    (hw : scoreWalk (fee_bps / 10000)
      (sortByTs PriceRow.timestamp price_data)
      (sortByTs STrade.timestamp trades) ⟨bal, 0, 0⟩
      (dedupTs ((sortByTs PriceRow.timestamp price_data).map (·.timestamp)))
      = .ok (st, equity))
    (hcond : yearsOfEq equity ≤ 0 ∨ pctChange (equity.map Prod.snd) = []) :
    calculate_score trades price_data bal fee_bps
      = .error "Not enough data to annualize." := by
  simp only [calculate_score]
  rw [h0]
  dsimp only
  rw [hie]
  dsimp only
  rw [hw]
  dsimp only
  rw [if_pos hcond]

/-- Witness for C7: a single price timestamp gives a one-point equity
curve, zero elapsed years and an empty returns series. -/
theorem C7_witness :
    calculate_score [] [⟨0, "token_1/fiat", 10⟩] [("fiat", 100)] 0
      = .error "Not enough data to annualize." :=
  C7_score_fails_to_annualize [] [⟨0, "token_1/fiat", 10⟩] [("fiat", 100)] 0
    ⟨0, "token_1/fiat", 10⟩ 100 ⟨[("fiat", 100)], 0, 0⟩ [(0, 100)]
    (by norm_num +decide [sortByTs, insertByTs])
    (by norm_num +decide [equityAt, dlookup, string_beq_eq_decide,
      sortByTs, insertByTs])
    (by norm_num +decide [scoreWalk, applyTradesAt, equityAt, dedupTs,
      sortByTs, insertByTs, dlookup, string_beq_eq_decide])
    (Or.inl (by norm_num [yearsOfEq]))

end HackathonTrading
